import Mathlib

/-!
Shallow embedding of the journey-planner route-planning core
(`source/journey_planner/computation/route_planning.py`, with the collaborator
wrappers from `source/journey_planner/integrations/google_maps.py` and the
constant from `source/journey_planner_python/config/constants.py`).

External collaborator calls (geocoding, distance matrix, nearby search, route
computation) are modelled as an explicit environment `Env`; the process-wide
random source (`random.randint`) is modelled as a stream `Env.rand` indexed by
a call counter held in the planner state.  The Python `while` loop is embedded
with explicit fuel, since for some collaborator responses it does not
terminate.  Python `int` is `Int`; coordinates are latitude/longitude pairs on
which the algorithm performs no arithmetic, so their float components are
carried as integers; dictionaries read by key are association lists with an
`Option`-valued lookup, a failed lookup being a `KeyError`.

CPython semantics encoded in the selection step (route_planning.py lines
122-127): on an empty candidate list, `randint(0, -1)` raises
`ValueError: empty range for randrange()` before `list.pop` is ever reached,
and `find_longitude_and_latitude` raises `ValueError` on a failed geocode;
the surrounding `try ... except IndexError` catches neither (for a non-empty
list the index is within bounds, so `pop` cannot raise `IndexError` either),
hence both `ValueError`s propagate out of `plan_route` and the
`except IndexError: break` arm is unreachable.  After the `pop` the local
candidate list is not read again in the iteration: on rejection the
`continue` statement restarts the outer `while` loop, which re-queries
`search_nearby_places`, so the removal has no observable effect and is not
modelled.
-/

namespace JourneyPlanner

/-- `Constants.CONVERSION_FACTOR_MINUTES_TO_METERS` (constants.py line 27). -/
def CONVERSION_FACTOR_MINUTES_TO_METERS : Int := 750

/-- A geographic coordinate: the `(latitude, longitude)` tuple returned by
`find_longitude_and_latitude`.  The planner only passes coordinates around and
compares them by value, never computing on the float components, so they are
carried as integers. -/
structure Coord where
  lat : Int
  lon : Int
deriving DecidableEq, Repr

/-- One entry of the list returned by `search_nearby_places`
(google_maps.py lines 173-181): `formatted_address`, `rating`,
`user_rating_count`, `display_name`, each possibly absent (`place.get`). -/
structure PlaceInfo where
  formatted_address : String
  rating : Option Rat
  user_rating_count : Option Int
  display_name : Option String
deriving DecidableEq, Repr

/-- The dictionary returned by `compute_route` (google_maps.py lines 311-315):
`distance_meters`, `duration_seconds`, `encoded_polyline`. -/
structure RouteInfo where
  distance_meters : Int
  duration_seconds : Int
  encoded_polyline : String
deriving DecidableEq, Repr

/-- A Python dictionary value that is either a string or an integer, as stored
in the result of `get_distance_matrix`. -/
inductive MVal
  | str (s : String)
  | int (i : Int)
deriving DecidableEq, Repr

/-- Dictionary lookup `d[k]` on an association list: `none` models a
`KeyError`. -/
def dictGet : List (String × MVal) → String → Option MVal
  | [], _ => none
  | (k, v) :: rest, key => if k = key then some v else dictGet rest key

/-- Read `d[k]` expecting a string value. -/
def dictGetStr (d : List (String × MVal)) (k : String) : Option String :=
  match dictGet d k with
  | some (.str s) => some s
  | _ => none

/-- Read `d[k]` expecting an integer value. -/
def dictGetInt (d : List (String × MVal)) (k : String) : Option Int :=
  match dictGet d k with
  | some (.int i) => some i
  | _ => none

/-- The data `get_distance_matrix` extracts from a successful Distance Matrix
API response (google_maps.py lines 76-81). -/
structure MatrixData where
  origin_address : String
  destination_address : String
  distance_text : String
  distance_value : Int
  duration_text : String
  duration_value : Int
deriving DecidableEq, Repr

/-- The result dictionary assembled by `get_distance_matrix`
(google_maps.py lines 83-92): exactly the keys `start_location`,
`end_location`, `distance_text`, `distance_value`, `duration_text`,
`duration_value`. -/
def get_distance_matrix_result (m : MatrixData) : List (String × MVal) :=
  [("start_location", .str m.origin_address),
   ("end_location", .str m.destination_address),
   ("distance_text", .str m.distance_text),
   ("distance_value", .int m.distance_value),
   ("duration_text", .str m.duration_text),
   ("duration_value", .int m.duration_value)]

/-- The distinct `ValueError`/`KeyError` outcomes `plan_route` can raise. -/
inductive PlanError
  /-- `ValueError("Location not found.")` from `find_longitude_and_latitude`
  (route_planning.py line 58). -/
  | locationNotFound
  /-- `ValueError("Ending location not reachable within the specified
  duration.")` (route_planning.py line 111). -/
  | unreachable
  /-- `ValueError("No nearby places found within the specified duration.")`
  (route_planning.py line 148). -/
  | noNearbyPlaces
  /-- `ValueError("empty range for randrange()")` raised by `randint(0, -1)`
  when the candidate list is empty (route_planning.py line 124); not caught by
  `except IndexError`. -/
  | emptyRange
  /-- `KeyError` from a dictionary lookup on a missing key. -/
  | keyError (k : String)
  /-- A dictionary value of the wrong runtime type for the operation
  performed on it. -/
  | typeError (k : String)
deriving DecidableEq, Repr

/-- Observable collaborator calls made during planning, in order. -/
inductive Event
  /-- A `search_nearby_places` query from a position with a radius. -/
  | searchNearby (pos : Coord) (radius : Int)
  /-- A `compute_route` call with origin, destination and intermediates. -/
  | computeRoute (origin dest : Coord) (intermediates : List Coord)
deriving DecidableEq, Repr

/-- The collaborator environment: the dictionary returned by the initial
`get_distance_matrix` call, the geocoder (`none` = location not found), the
nearby search, the route-computation service, and the `randint` stream
(call number to raw value; the selection index is the value modulo the
candidate-list length). -/
structure Env where
  matrix : List (String × MVal)
  geocode : String → Option Coord
  search : Coord → Int → List PlaceInfo
  route : Coord → Coord → List Coord → RouteInfo
  rand : Nat → Nat

/-- Mutable locals of `plan_route`'s composition loop
(route_planning.py lines 104-107): `start_latlong` doubles as the current
position, `remaining_duration`, and `intermediate_latlongs`; plus the random
call counter and the trace of collaborator calls made so far. -/
structure PlanState where
  start_latlong : Coord
  remaining_duration : Int
  intermediate_latlongs : List Coord
  randCtr : Nat
  trace : List Event
deriving DecidableEq, Repr

/-- Outcome of one iteration of the `while` loop body. -/
inductive StepRes
  /-- Fall through to the next iteration (acceptance, or rejection via
  `continue`). -/
  | next (s : PlanState)
  /-- `break` out of the loop (waypoint cap reached). -/
  | brk (s : PlanState)
  /-- An uncaught exception aborts the call. -/
  | fail (s : PlanState) (e : PlanError)
deriving DecidableEq, Repr

/-- One iteration of the composition loop (route_planning.py lines 114-145),
entered with `remaining_duration > 0`:
search nearby places within `remaining_duration * 750` of the current
position; on an empty list `randint(0, -1)` raises an uncaught `ValueError`;
otherwise pick a random candidate, geocode its `formatted_address` (a failure
raises an uncaught `ValueError`), compute the route to it and from it to the
end, and accept it exactly when the two durations sum to at most
`remaining_duration`, subtracting only the first leg's duration, appending
the coordinate, moving the current position to it, and breaking once 8
waypoints are held; on rejection `continue` with no state change. -/
def loopBody (env : Env) (end_latlong : Coord) (s : PlanState) : StepRes :=
  let radius := s.remaining_duration * CONVERSION_FACTOR_MINUTES_TO_METERS
  let nearby := env.search s.start_latlong radius
  let s0 := { s with trace := s.trace ++ [.searchNearby s.start_latlong radius] }
  match nearby with
  | [] => .fail s0 .emptyRange
  | p :: rest =>
    let idx := env.rand s.randCtr % (p :: rest).length
    let selected_place := (p :: rest).getD idx p
    let s1 := { s0 with randCtr := s0.randCtr + 1 }
    match env.geocode selected_place.formatted_address with
    | none => .fail s1 .locationNotFound
    | some selected_latlong =>
      let route_to_selection := env.route s.start_latlong selected_latlong []
      let route_to_end := env.route selected_latlong end_latlong []
      let s2 := { s1 with trace := s1.trace ++
        [.computeRoute s.start_latlong selected_latlong [],
         .computeRoute selected_latlong end_latlong []] }
      if route_to_selection.duration_seconds + route_to_end.duration_seconds
          ≤ s.remaining_duration then
        let s3 := { s2 with
          remaining_duration := s2.remaining_duration -
            route_to_selection.duration_seconds,
          intermediate_latlongs := s2.intermediate_latlongs ++ [selected_latlong],
          start_latlong := selected_latlong }
        if s3.intermediate_latlongs.length = 8 then .brk s3 else .next s3
      else
        .next s2

/-- How the composition loop ended. -/
inductive LoopRes
  /-- The loop exited normally (condition false, or `break`). -/
  | done (s : PlanState)
  /-- An uncaught exception aborted the loop. -/
  | failed (s : PlanState) (e : PlanError)
deriving DecidableEq, Repr

/-- The `while remaining_duration > 0` loop, driven with explicit fuel;
`none` means the fuel ran out before the loop ended. -/
def runLoop (env : Env) (end_latlong : Coord) : Nat → PlanState → Option LoopRes
  | 0, _ => none
  | fuel + 1, s =>
    if 0 < s.remaining_duration then
      match loopBody env end_latlong s with
      | .next s2 => runLoop env end_latlong fuel s2
      | .brk s2 => some (.done s2)
      | .fail s2 e => some (.failed s2 e)
    else some (.done s)

/-- Result of a planning call: the final route dictionary, or an uncaught
exception. -/
inductive PlanOutcome
  | ok (r : RouteInfo)
  | err (e : PlanError)
deriving DecidableEq, Repr

/-- `plan_route` (route_planning.py lines 61-155), returning the outcome
together with the trace of nearby-search and route-computation calls made;
`none` means the composition loop ran beyond the supplied fuel.
Faithful ordering: read `start_location` and `end_location` from the
distance-matrix dictionary and geocode each (lines 103-105), read
`["duration"]` and fail the call if it exceeds the requested duration
(lines 110-111), run the composition loop (lines 114-145), raise if no
waypoint was accepted (lines 147-148), and finally call `compute_route` once
with the current `start_latlong` (reassigned on every acceptance), the end
coordinate and the accepted intermediates, returning its result verbatim
(lines 151-155). -/
def plan_route (env : Env) (duration : Int) (fuel : Nat) :
    Option (PlanOutcome × List Event) :=
  match dictGet env.matrix "start_location" with
  | none => some (.err (.keyError "start_location"), [])
  | some (.int _) => some (.err (.typeError "start_location"), [])
  | some (.str start_addr) =>
    match env.geocode start_addr with
    | none => some (.err .locationNotFound, [])
    | some start_latlong =>
      match dictGet env.matrix "end_location" with
      | none => some (.err (.keyError "end_location"), [])
      | some (.int _) => some (.err (.typeError "end_location"), [])
      | some (.str end_addr) =>
        match env.geocode end_addr with
        | none => some (.err .locationNotFound, [])
        | some end_latlong =>
          match dictGet env.matrix "duration" with
          | none => some (.err (.keyError "duration"), [])
          | some (.str _) => some (.err (.typeError "duration"), [])
          | some (.int matrix_duration) =>
            if duration < matrix_duration then
              some (.err .unreachable, [])
            else
              match runLoop env end_latlong fuel
                  ⟨start_latlong, duration, [], 0, []⟩ with
              | none => none
              | some (.failed s e) => some (.err e, s.trace)
              | some (.done s) =>
                if s.intermediate_latlongs.length = 0 then
                  some (.err .noNearbyPlaces, s.trace)
                else
                  let total := env.route s.start_latlong end_latlong
                    s.intermediate_latlongs
                  some (.ok total, s.trace ++
                    [.computeRoute s.start_latlong end_latlong
                      s.intermediate_latlongs])

/-- Projection to the planner state a loop run ended in. -/
def LoopRes.state : LoopRes → PlanState
  | .done s => s
  | .failed s _ => s

/-- Projection to the planner state an iteration ended in. -/
def StepRes.state : StepRes → PlanState
  | .next s => s
  | .brk s => s
  | .fail s _ => s

/-- The planner state after accepting coordinate `sel`
(route_planning.py lines 137-140): charge the first leg only, append the
coordinate, move the current position to it. -/
def acceptedState (env : Env) (endLL : Coord) (s : PlanState) (sel : Coord) :
    PlanState where
  start_latlong := sel
  remaining_duration :=
    s.remaining_duration - (env.route s.start_latlong sel []).duration_seconds
  intermediate_latlongs := s.intermediate_latlongs ++ [sel]
  randCtr := s.randCtr + 1
  trace := (s.trace ++
    [.searchNearby s.start_latlong
      (s.remaining_duration * CONVERSION_FACTOR_MINUTES_TO_METERS)]) ++
    [.computeRoute s.start_latlong sel [], .computeRoute sel endLL []]

/-- Number of nearby-search queries recorded in a trace. -/
def countSearch : List Event → Nat
  | [] => 0
  | .searchNearby _ _ :: rest => countSearch rest + 1
  | .computeRoute _ _ _ :: rest => countSearch rest

/-! ### Concrete test environments (mocked collaborators, spec §8 style) -/

/-- Resolved coordinate of the start location "A". -/
def cA : Coord := ⟨1, 1⟩

/-- Resolved coordinate of the end location "B". -/
def cB : Coord := ⟨2, 2⟩

/-- Resolved coordinate of candidate address "C". -/
def cC : Coord := ⟨3, 3⟩

/-- Resolved coordinate of candidate address "D". -/
def cD : Coord := ⟨4, 4⟩

/-- A candidate place carrying only its formatted address. -/
def placeNamed (a : String) : PlaceInfo := ⟨a, none, none, none⟩

/-- A mocked geocoder resolving the four addresses "A", "B", "C", "D". -/
def mockGeocode : String → Option Coord := fun a =>
  if a = "A" then some cA
  else if a = "B" then some cB
  else if a = "C" then some cC
  else if a = "D" then some cD
  else none

/-- A mocked distance-matrix dictionary that does carry a `"duration"` key
with the given value, as a test stub for `plan_route`'s feasibility read. -/
def mockMatrix (d : Int) : List (String × MVal) :=
  [("start_location", .str "A"), ("end_location", .str "B"),
   ("duration", .int d)]

/-- Environment in which the single candidate "C" is accepted with
`cost_to_candidate = 3600` and `cost_candidate_to_end = 0`, exhausting a
3600-second budget so the loop exits after one acceptance. -/
def envAcceptOne : Env where
  matrix := mockMatrix 1800
  geocode := mockGeocode
  search := fun _ _ => [placeNamed "C"]
  route := fun o _ _ => if o = cA then ⟨100, 3600, "p"⟩ else ⟨100, 0, "p"⟩
  rand := fun _ => 0

/-- Environment whose distance matrix is the dictionary actually built by
`get_distance_matrix` (so it has a `"duration_value"` key but no
`"duration"` key). -/
def envRealMatrix : Env where
  matrix := get_distance_matrix_result ⟨"A", "B", "1 km", 1000, "1 min", 60⟩
  geocode := mockGeocode
  search := fun _ _ => [placeNamed "C"]
  route := fun _ _ _ => ⟨0, 0, ""⟩
  rand := fun _ => 0

/-- Environment whose mocked matrix duration 4000 exceeds the requested
3600-second budget. -/
def envUnreach : Env where
  matrix := mockMatrix 4000
  geocode := mockGeocode
  search := fun _ _ => [placeNamed "C"]
  route := fun _ _ _ => ⟨0, 0, ""⟩
  rand := fun _ => 0

/-- Environment returning two candidates "C" and "D"; the first pick "C" is
rejected (cost 5000 exceeds the 3600-second budget), the second pick "D" is
accepted with cost 3600, exhausting the budget. -/
def envRetry : Env where
  matrix := mockMatrix 1800
  geocode := mockGeocode
  search := fun _ _ => [placeNamed "C", placeNamed "D"]
  route := fun _ d _ =>
    if d = cC then ⟨0, 5000, ""⟩
    else if d = cD then ⟨0, 3600, ""⟩
    else ⟨0, 0, ""⟩
  rand := fun k => k

/-- Environment whose only candidate has an address "X" the geocoder cannot
resolve. -/
def envGeoFail : Env where
  matrix := mockMatrix 1800
  geocode := mockGeocode
  search := fun _ _ => [placeNamed "X"]
  route := fun _ _ _ => ⟨0, 0, ""⟩
  rand := fun _ => 0

/-- Environment whose nearby search always returns the empty list. -/
def envEmpty : Env where
  matrix := mockMatrix 1800
  geocode := mockGeocode
  search := fun _ _ => []
  route := fun _ _ _ => ⟨0, 0, ""⟩
  rand := fun _ => 0

/-- Environment whose single candidate "C" always costs 1000000 seconds to
reach, so every iteration rejects it and the loop never makes progress. -/
def envLoopForever : Env where
  matrix := mockMatrix 0
  geocode := mockGeocode
  search := fun _ _ => [placeNamed "C"]
  route := fun _ d _ => if d = cC then ⟨0, 1000000, ""⟩ else ⟨0, 0, ""⟩
  rand := fun _ => 0

/-- `plan_route` diverges on this environment and duration: no amount of
fuel completes the call. -/
def plan_route_diverges (env : Env) (duration : Int) : Prop :=
  ∀ fuel : Nat, plan_route env duration fuel = none

/-! ### Helper lemmas about one loop iteration and the loop driver -/

/-- Inversion principle for one loop iteration: it either fails (empty
candidate list, or a failed candidate geocode), preserving the planner
state; or rejects the picked candidate, preserving the planner state; or
accepts it, appending exactly its coordinate, moving the current position
there, charging exactly the first leg, with the feasibility inequality
holding at evaluation time, and breaking exactly when the list reaches 8. -/
theorem loopBody_inv (env : Env) (endLL : Coord) (s : PlanState) :
    (∃ s2 e, loopBody env endLL s = .fail s2 e ∧
      s2.intermediate_latlongs = s.intermediate_latlongs ∧
      s2.remaining_duration = s.remaining_duration ∧
      s2.start_latlong = s.start_latlong) ∨
    (∃ s2, loopBody env endLL s = .next s2 ∧
      s2.intermediate_latlongs = s.intermediate_latlongs ∧
      s2.remaining_duration = s.remaining_duration ∧
      s2.start_latlong = s.start_latlong) ∨
    (∃ s2 sel,
      (loopBody env endLL s = .next s2 ∨ loopBody env endLL s = .brk s2) ∧
      s2.intermediate_latlongs = s.intermediate_latlongs ++ [sel] ∧
      s2.start_latlong = sel ∧
      s2.remaining_duration =
        s.remaining_duration - (env.route s.start_latlong sel []).duration_seconds ∧
      (env.route s.start_latlong sel []).duration_seconds +
        (env.route sel endLL []).duration_seconds ≤ s.remaining_duration ∧
      (loopBody env endLL s = .brk s2 ↔ s2.intermediate_latlongs.length = 8)) := by
  unfold loopBody
  dsimp only
  split
  · left; exact ⟨_, _, rfl, rfl, rfl, rfl⟩
  · split
    · left; exact ⟨_, _, rfl, rfl, rfl, rfl⟩
    · split
      · split
        · right; right
          refine ⟨_, _, Or.inr rfl, rfl, rfl, rfl, by assumption, ?_⟩
          constructor
          · intro _; assumption
          · intro _; rfl
        · right; right
          refine ⟨_, _, Or.inl rfl, rfl, rfl, rfl, by assumption, ?_⟩
          constructor
          · intro h; cases h
          · intro h; exact absurd h (by assumption)
      · right; left
        exact ⟨_, rfl, rfl, rfl, rfl⟩

/-- A continuing iteration is either a rejection preserving the planner
state, or an acceptance appending exactly one coordinate that did not bring
the list to 8 entries. -/
theorem loopBody_next_cases {env : Env} {endLL : Coord} {s s2 : PlanState}
    (h : loopBody env endLL s = .next s2) :
    (s2.intermediate_latlongs = s.intermediate_latlongs ∧
      s2.remaining_duration = s.remaining_duration ∧
      s2.start_latlong = s.start_latlong) ∨
    (∃ sel, s2.intermediate_latlongs = s.intermediate_latlongs ++ [sel] ∧
      s2.start_latlong = sel ∧
      s2.remaining_duration =
        s.remaining_duration - (env.route s.start_latlong sel []).duration_seconds ∧
      (env.route s.start_latlong sel []).duration_seconds +
        (env.route sel endLL []).duration_seconds ≤ s.remaining_duration ∧
      s2.intermediate_latlongs.length ≠ 8) := by
  rcases loopBody_inv env endLL s with
    ⟨sf, e, hf, _⟩ | ⟨sn, hn, h1, h2, h3⟩ | ⟨sa, sel, hor, h1, h2, h3, h4, hiff⟩
  · rw [h] at hf; simp at hf
  · rw [h] at hn
    injection hn with hh
    subst hh
    exact Or.inl ⟨h1, h2, h3⟩
  · rcases hor with hna | hba
    · rw [h] at hna
      injection hna with hh
      subst hh
      refine Or.inr ⟨sel, h1, h2, h3, h4, fun h8 => ?_⟩
      have hb := hiff.mpr h8
      rw [h] at hb
      simp at hb
    · rw [h] at hba; simp at hba

/-- A breaking iteration is an acceptance that brought the waypoint list to
exactly 8 entries. -/
theorem loopBody_brk_cases {env : Env} {endLL : Coord} {s s2 : PlanState}
    (h : loopBody env endLL s = .brk s2) :
    ∃ sel, s2.intermediate_latlongs = s.intermediate_latlongs ++ [sel] ∧
      s2.start_latlong = sel ∧
      s2.remaining_duration =
        s.remaining_duration - (env.route s.start_latlong sel []).duration_seconds ∧
      (env.route s.start_latlong sel []).duration_seconds +
        (env.route sel endLL []).duration_seconds ≤ s.remaining_duration ∧
      s2.intermediate_latlongs.length = 8 := by
  rcases loopBody_inv env endLL s with
    ⟨sf, e, hf, _⟩ | ⟨sn, hn, h1, h2, h3⟩ | ⟨sa, sel, hor, h1, h2, h3, h4, hiff⟩
  · rw [h] at hf; simp at hf
  · rw [h] at hn; simp at hn
  · rcases hor with hna | hba
    · rw [h] at hna; simp at hna
    · rw [h] at hba
      injection hba with hh
      subst hh
      exact ⟨sel, h1, h2, h3, h4, hiff.mp h⟩

/-- A failing iteration preserves the planner state. -/
theorem loopBody_fail_cases {env : Env} {endLL : Coord} {s s2 : PlanState}
    {e : PlanError} (h : loopBody env endLL s = .fail s2 e) :
    s2.intermediate_latlongs = s.intermediate_latlongs ∧
      s2.remaining_duration = s.remaining_duration ∧
      s2.start_latlong = s.start_latlong := by
  rcases loopBody_inv env endLL s with
    ⟨sf, ef, hf, h1, h2, h3⟩ | ⟨sn, hn, _⟩ | ⟨sa, sel, hor, _⟩
  · rw [h] at hf
    injection hf with hh1 hh2
    subst hh1
    exact ⟨h1, h2, h3⟩
  · rw [h] at hn; simp at hn
  · rcases hor with hna | hba
    · rw [h] at hna; simp at hna
    · rw [h] at hba; simp at hba

/-- Every invocation of the loop body records a fresh nearby-search query,
from the current position with radius `remaining_duration * 750`, as its
first new trace event. -/
theorem loopBody_trace_head (env : Env) (endLL : Coord) (s : PlanState) :
    ∃ tail, (loopBody env endLL s).state.trace =
      s.trace ++ .searchNearby s.start_latlong
        (s.remaining_duration * CONVERSION_FACTOR_MINUTES_TO_METERS) :: tail := by
  unfold loopBody
  dsimp only
  split
  · exact ⟨[], by simp [StepRes.state]⟩
  · split
    · exact ⟨[], by simp [StepRes.state]⟩
    · next sel hgeo =>
      refine ⟨[.computeRoute s.start_latlong sel [], .computeRoute sel endLL []], ?_⟩
      split
      · split <;> simp [StepRes.state]
      · simp [StepRes.state]

/-- Invariant-preservation principle for the fuelled loop driver: if `P`
holds of a state and is preserved by continuing iterations, and implies `Q`
at every way the loop can end, then any completed run from a `P`-state ends
in a `Q`-state. -/
theorem runLoop_preserve (env : Env) (endLL : Coord) (P Q : PlanState → Prop)
    (hnext : ∀ s s2, P s → loopBody env endLL s = .next s2 → P s2)
    (hbrk : ∀ s s2, P s → loopBody env endLL s = .brk s2 → Q s2)
    (hfail : ∀ s s2 e, P s → loopBody env endLL s = .fail s2 e → Q s2)
    (hexit : ∀ s, P s → Q s) :
    ∀ fuel s res, P s → runLoop env endLL fuel s = some res → Q res.state := by
  intro fuel
  induction fuel with
  | zero =>
    intro s res _ h
    simp [runLoop] at h
  | succ n ih =>
    intro s res hP h
    rw [runLoop] at h
    by_cases hpos : 0 < s.remaining_duration
    · rw [if_pos hpos] at h
      cases hb : loopBody env endLL s with
      | next s2 =>
        rw [hb] at h
        exact ih s2 res (hnext s s2 hP hb) h
      | brk s2 =>
        rw [hb] at h
        injection h with hh
        subst hh
        exact hbrk s s2 hP hb
      | fail s2 e =>
        rw [hb] at h
        injection h with hh
        subst hh
        exact hfail s s2 e hP hb
    · rw [if_neg hpos] at h
      injection h with hh
      subst hh
      exact hexit s hP

/-- Explicit form of a rejecting iteration: with a non-empty search result,
a resolvable pick, and leg costs exceeding the remaining duration, the body
falls through to the next iteration having only advanced the random counter
and recorded the three collaborator calls. -/
theorem loopBody_reject_eq (env : Env) (endLL : Coord) (s : PlanState)
    (p : PlaceInfo) (rest : List PlaceInfo) (sel : Coord)
    (hsearch : env.search s.start_latlong
      (s.remaining_duration * CONVERSION_FACTOR_MINUTES_TO_METERS) = p :: rest)
    (hgeo : env.geocode ((p :: rest).getD
      (env.rand s.randCtr % (p :: rest).length) p).formatted_address = some sel)
    (hrej : ¬ ((env.route s.start_latlong sel []).duration_seconds +
      (env.route sel endLL []).duration_seconds ≤ s.remaining_duration)) :
    loopBody env endLL s = .next { s with
      randCtr := s.randCtr + 1,
      trace := s.trace ++
        [.searchNearby s.start_latlong
          (s.remaining_duration * CONVERSION_FACTOR_MINUTES_TO_METERS),
         .computeRoute s.start_latlong sel [],
         .computeRoute sel endLL []] } := by
  unfold loopBody
  dsimp only
  rw [hsearch]
  dsimp only
  rw [hgeo]
  dsimp only
  rw [if_neg hrej]
  simp

/-- Explicit form of an iteration whose picked candidate fails to geocode:
the `ValueError` escapes the `except IndexError` clause and aborts the call,
with the planner state unchanged apart from the recorded search query. -/
theorem loopBody_geofail_eq (env : Env) (endLL : Coord) (s : PlanState)
    (p : PlaceInfo) (rest : List PlaceInfo)
    (hsearch : env.search s.start_latlong
      (s.remaining_duration * CONVERSION_FACTOR_MINUTES_TO_METERS) = p :: rest)
    (hgeo : env.geocode ((p :: rest).getD
      (env.rand s.randCtr % (p :: rest).length) p).formatted_address = none) :
    loopBody env endLL s = .fail { s with
      randCtr := s.randCtr + 1,
      trace := s.trace ++
        [.searchNearby s.start_latlong
          (s.remaining_duration * CONVERSION_FACTOR_MINUTES_TO_METERS)] }
      .locationNotFound := by
  unfold loopBody
  dsimp only
  rw [hsearch]
  dsimp only
  rw [hgeo]

/-- Explicit form of an accepting iteration: with a non-empty search result,
a resolvable pick, and leg costs within the remaining duration, the body
moves to `acceptedState`, breaking exactly when the list reaches 8. -/
theorem loopBody_accept_eq (env : Env) (endLL : Coord) (s : PlanState)
    (p : PlaceInfo) (rest : List PlaceInfo) (sel : Coord)
    (hsearch : env.search s.start_latlong
      (s.remaining_duration * CONVERSION_FACTOR_MINUTES_TO_METERS) = p :: rest)
    (hgeo : env.geocode ((p :: rest).getD
      (env.rand s.randCtr % (p :: rest).length) p).formatted_address = some sel)
    (hacc : (env.route s.start_latlong sel []).duration_seconds +
      (env.route sel endLL []).duration_seconds ≤ s.remaining_duration) :
    loopBody env endLL s =
      if (s.intermediate_latlongs ++ [sel]).length = 8
      then .brk (acceptedState env endLL s sel)
      else .next (acceptedState env endLL s sel) := by
  unfold loopBody
  dsimp only
  rw [hsearch]
  dsimp only
  rw [hgeo]
  dsimp only
  rw [if_pos hacc]
  rfl

/-- Unfolding of `plan_route` down to its composition loop, given the reads
and geocodes preceding the loop. -/
theorem plan_route_loop_eq (env : Env) (duration : Int) (fuel : Nat)
    (sa ea : String) (sLL eLL : Coord) (d : Int)
    (h1 : dictGet env.matrix "start_location" = some (.str sa))
    (hg1 : env.geocode sa = some sLL)
    (h2 : dictGet env.matrix "end_location" = some (.str ea))
    (hg2 : env.geocode ea = some eLL)
    (h3 : dictGet env.matrix "duration" = some (.int d))
    (hd : ¬ duration < d) :
    plan_route env duration fuel =
      match runLoop env eLL fuel ⟨sLL, duration, [], 0, []⟩ with
      | none => none
      | some (.failed s e) => some (.err e, s.trace)
      | some (.done s) =>
        if s.intermediate_latlongs.length = 0 then
          some (.err .noNearbyPlaces, s.trace)
        else
          some (.ok (env.route s.start_latlong eLL s.intermediate_latlongs),
            s.trace ++ [.computeRoute s.start_latlong eLL
              s.intermediate_latlongs]) := by
  unfold plan_route
  rw [h1]
  dsimp only
  rw [hg1]
  dsimp only
  rw [h2]
  dsimp only
  rw [hg2]
  dsimp only
  rw [h3]
  dsimp only
  rw [if_neg hd]

/-- On the always-rejecting environment, one iteration from the stuck state
only advances the random counter and the trace. -/
theorem loopForever_step (ctr : Nat) (tr : List Event) :
    loopBody envLoopForever cB ⟨cA, 3600, [], ctr, tr⟩ =
      .next ⟨cA, 3600, [], ctr + 1,
        (tr ++ [.searchNearby cA 2700000]) ++
          [.computeRoute cA cC [], .computeRoute cC cB []]⟩ := by rfl

/-- On the always-rejecting environment, the loop consumes any amount of
fuel without ending. -/
theorem runLoop_loopForever (n ctr : Nat) (tr : List Event) :
    runLoop envLoopForever cB n ⟨cA, 3600, [], ctr, tr⟩ = none := by
  induction n generalizing ctr tr with
  | zero => rfl
  | succ n ih =>
    rw [runLoop, loopForever_step]
    dsimp only
    rw [if_pos (by decide : (0 : Int) < 3600)]
    exact ih (ctr + 1) _

/-! ### Claim theorems -/

/-- Claim C1, evaluated at a failing input: on a run whose loop ends with
the single accepted waypoint `cC`, `plan_route` makes exactly one final
Route Compute call (the only traced call carrying intermediates) and
returns its result verbatim — but that call's origin is `cC`, the last
accepted waypoint, not the resolved start coordinate `cA`:
`start_latlong` is reassigned on every acceptance (route_planning.py
line 140) and the reassigned value is what line 152 passes as origin. -/
theorem final_route_call_origin_is_last_waypoint :
    plan_route envAcceptOne 3600 2 =
      some (.ok ⟨100, 0, "p"⟩,
        [.searchNearby cA 2700000,
         .computeRoute cA cC [],
         .computeRoute cC cB [],
         .computeRoute cC cB [cC]]) ∧
    cC ≠ cA := ⟨by rfl, by decide⟩

/-- Claim C2: the feasibility comparison (route_planning.py line 110) reads
key `"duration"`, but the dictionary `get_distance_matrix` returns
(google_maps.py lines 83-92) never contains that key; so on every
invocation in which the distance-matrix call returns normally and the
canonical addresses geocode, `plan_route` raises `KeyError` at the
comparison instead of performing a well-defined lookup. -/
theorem duration_key_lookup_always_fails (m : MatrixData) (env : Env)
    (duration : Int) (fuel : Nat) (sLL eLL : Coord)
    (hm : env.matrix = get_distance_matrix_result m)
    (hg1 : env.geocode m.origin_address = some sLL)
    (hg2 : env.geocode m.destination_address = some eLL) :
    dictGet (get_distance_matrix_result m) "duration" = none ∧
    plan_route env duration fuel = some (.err (.keyError "duration"), []) := by
  have k0 : dictGet (get_distance_matrix_result m) "duration" = none := by rfl
  refine ⟨k0, ?_⟩
  have k1 : dictGet env.matrix "start_location" =
      some (.str m.origin_address) := by rw [hm]; rfl
  have k2 : dictGet env.matrix "end_location" =
      some (.str m.destination_address) := by rw [hm]; rfl
  have k3 : dictGet env.matrix "duration" = none := by rw [hm]; exact k0
  unfold plan_route
  rw [k1]
  dsimp only
  rw [hg1]
  dsimp only
  rw [k2]
  dsimp only
  rw [hg2]
  dsimp only
  rw [k3]

/-- Witness for C2: with the matrix dictionary built by
`get_distance_matrix` from a concrete API response, `plan_route` raises
`KeyError "duration"`. -/
theorem duration_key_lookup_always_fails_witness :
    dictGet (get_distance_matrix_result
      ⟨"A", "B", "1 km", 1000, "1 min", 60⟩) "duration" = none ∧
    plan_route envRealMatrix 3600 5 =
      some (.err (.keyError "duration"), []) :=
  duration_key_lookup_always_fails ⟨"A", "B", "1 km", 1000, "1 min", 60⟩
    envRealMatrix 3600 5 cA cB rfl rfl rfl

/-- Claim C3: whenever the dictionary read at the feasibility pre-check
yields a duration `d` exceeding the requested duration (and the canonical
addresses geocode, which line order requires first), `plan_route` fails
with the `UnreachableWithinDuration` error and its trace records no
nearby-search query. -/
theorem unreachable_fails_before_any_search (env : Env) (duration : Int)
    (fuel : Nat) (sa ea : String) (sLL eLL : Coord) (d : Int)
    (h1 : dictGet env.matrix "start_location" = some (.str sa))
    (hg1 : env.geocode sa = some sLL)
    (h2 : dictGet env.matrix "end_location" = some (.str ea))
    (hg2 : env.geocode ea = some eLL)
    (h3 : dictGet env.matrix "duration" = some (.int d))
    (hlt : duration < d) :
    ∃ tr, plan_route env duration fuel = some (.err .unreachable, tr) ∧
      ∀ pos radius, Event.searchNearby pos radius ∉ tr := by
  refine ⟨[], ?_, by simp⟩
  unfold plan_route
  rw [h1]
  dsimp only
  rw [hg1]
  dsimp only
  rw [h2]
  dsimp only
  rw [hg2]
  dsimp only
  rw [h3]
  dsimp only
  rw [if_pos hlt]

/-- Witness for C3: a mocked matrix duration of 4000 against a requested
3600 fails with the unreachable error and zero searches. -/
theorem unreachable_fails_before_any_search_witness :
    ∃ tr, plan_route envUnreach 3600 3 = some (.err .unreachable, tr) ∧
      ∀ pos radius, Event.searchNearby pos radius ∉ tr :=
  unreachable_fails_before_any_search envUnreach 3600 3 "A" "B" cA cB 4000
    rfl rfl rfl rfl rfl (by decide)

/-- Claim C4, counterexample: the first search returns two candidates; the
picked "C" is rejected; the very next collaborator interaction is a second
nearby-search query (the trace holds two `searchNearby` events, the second
strictly between the two candidate evaluations), although the untried
candidate "D" remained in the first search result — so a rejected pick is
retried only after re-querying the Nearby Place Finder, contradicting the
claim that the retry uses the same search result without re-querying. -/
theorem rejection_triggers_fresh_search_query :
    plan_route envRetry 3600 3 =
      some (.ok ⟨0, 0, ""⟩,
        [.searchNearby cA 2700000,
         .computeRoute cA cC [],
         .computeRoute cC cB [],
         .searchNearby cA 2700000,
         .computeRoute cA cD [],
         .computeRoute cD cB [],
         .computeRoute cD cB [cD]]) ∧
    envRetry.search cA 2700000 = [placeNamed "C", placeNamed "D"] ∧
    countSearch
      [.searchNearby cA 2700000,
       .computeRoute cA cC [],
       .computeRoute cC cB [],
       .searchNearby cA 2700000,
       .computeRoute cA cD [],
       .computeRoute cD cB [],
       .computeRoute cD cB [cD]] = 2 := ⟨by rfl, by rfl, by rfl⟩

/-- Claim C4, amended: when the feasibility check rejects the picked
candidate, no planner state is mutated — remaining duration, waypoint list
and current position are unchanged — and control falls to the next outer
iteration, whose first action is a fresh nearby-search query from the same
position with the unchanged remaining duration (rather than a pick from the
remaining candidates of the previous search result). -/
theorem rejection_preserves_state_then_researches (env : Env)
    (endLL : Coord) (s : PlanState) (p : PlaceInfo) (rest : List PlaceInfo)
    (sel : Coord)
    (hsearch : env.search s.start_latlong
      (s.remaining_duration * CONVERSION_FACTOR_MINUTES_TO_METERS) = p :: rest)
    (hgeo : env.geocode ((p :: rest).getD
      (env.rand s.randCtr % (p :: rest).length) p).formatted_address = some sel)
    (hrej : ¬ ((env.route s.start_latlong sel []).duration_seconds +
      (env.route sel endLL []).duration_seconds ≤ s.remaining_duration)) :
    ∃ s2, loopBody env endLL s = .next s2 ∧
      s2.remaining_duration = s.remaining_duration ∧
      s2.intermediate_latlongs = s.intermediate_latlongs ∧
      s2.start_latlong = s.start_latlong ∧
      ∃ tail, (loopBody env endLL s2).state.trace =
        s2.trace ++ .searchNearby s.start_latlong
          (s.remaining_duration * CONVERSION_FACTOR_MINUTES_TO_METERS) :: tail := by
  refine ⟨_, loopBody_reject_eq env endLL s p rest sel hsearch hgeo hrej,
    rfl, rfl, rfl, ?_⟩
  exact loopBody_trace_head env endLL _

/-- Witness for the amended C4: the rejection of "C" in `envRetry` leaves
the initial state intact and the next iteration opens with a search. -/
theorem rejection_preserves_state_then_researches_witness :
    ∃ s2, loopBody envRetry cB ⟨cA, 3600, [], 0, []⟩ = .next s2 ∧
      s2.remaining_duration = 3600 ∧
      s2.intermediate_latlongs = [] ∧
      s2.start_latlong = cA ∧
      ∃ tail, (loopBody envRetry cB s2).state.trace =
        s2.trace ++ .searchNearby cA 2700000 :: tail :=
  rejection_preserves_state_then_researches envRetry cB ⟨cA, 3600, [], 0, []⟩
    (placeNamed "C") [placeNamed "D"] cC rfl rfl (by decide)

/-- Claim C5, counterexample: the only candidate's address "X" fails to
geocode, and `plan_route` raises the location-not-found `ValueError` to its
caller — the failure is not recovered inside the selection loop, because
the `try` block's `except IndexError` clause does not catch `ValueError`. -/
theorem candidate_geocode_failure_reaches_caller :
    plan_route envGeoFail 3600 4 =
      some (.err .locationNotFound, [.searchNearby cA 2700000]) := by rfl

/-- Claim C5, amended: if resolving the selected candidate's address fails,
the `ValueError` raised by the resolver propagates out of the composition
loop unchanged (only `IndexError` is caught around the selection), aborting
the planning call with the loop state otherwise unmutated; the candidate
list is not retried. -/
theorem geocode_failure_propagates (env : Env) (endLL : Coord)
    (s : PlanState) (fuel : Nat) (p : PlaceInfo) (rest : List PlaceInfo)
    (hpos : 0 < s.remaining_duration)
    (hsearch : env.search s.start_latlong
      (s.remaining_duration * CONVERSION_FACTOR_MINUTES_TO_METERS) = p :: rest)
    (hgeo : env.geocode ((p :: rest).getD
      (env.rand s.randCtr % (p :: rest).length) p).formatted_address = none) :
    ∃ s2, runLoop env endLL (fuel + 1) s =
        some (.failed s2 .locationNotFound) ∧
      s2.intermediate_latlongs = s.intermediate_latlongs ∧
      s2.remaining_duration = s.remaining_duration ∧
      s2.start_latlong = s.start_latlong := by
  refine ⟨{ s with
              randCtr := s.randCtr + 1,
              trace := s.trace ++ [.searchNearby s.start_latlong
                (s.remaining_duration * CONVERSION_FACTOR_MINUTES_TO_METERS)] },
    ?_, rfl, rfl, rfl⟩
  rw [runLoop, if_pos hpos, loopBody_geofail_eq env endLL s p rest hsearch hgeo]

/-- Witness for the amended C5: the unresolvable candidate "X" aborts the
loop with the location-not-found error on the first iteration. -/
theorem geocode_failure_propagates_witness :
    ∃ s2, runLoop envGeoFail cB 1 ⟨cA, 3600, [], 0, []⟩ =
        some (.failed s2 .locationNotFound) ∧
      s2.intermediate_latlongs = [] ∧
      s2.remaining_duration = 3600 ∧
      s2.start_latlong = cA :=
  geocode_failure_propagates envGeoFail cB ⟨cA, 3600, [], 0, []⟩ 0
    (placeNamed "X") [] (by decide) rfl rfl

/-- Claim C6, evaluated at the failing input: when the first nearby search
returns an empty list, the loop does not terminate normally and
`NoNearbyPlacesFound` is never raised; instead `randint(0, -1)` raises
`ValueError: empty range for randrange()`, which the `except IndexError`
clause does not catch, and that error escapes `plan_route`. -/
theorem empty_search_raises_uncaught_value_error :
    plan_route envEmpty 3600 1 =
      some (.err .emptyRange, [.searchNearby cA 2700000]) := by rfl

/-- Claim C7: a resolved candidate is accepted exactly when
`cost_to_candidate + cost_candidate_to_end <= remaining_duration` at
evaluation time; on acceptance exactly `cost_to_candidate` is subtracted,
the candidate's coordinate is appended, and the current position moves to
it; on rejection all three are unchanged. -/
theorem acceptance_iff_fits_remaining (env : Env) (endLL : Coord)
    (s : PlanState) (p : PlaceInfo) (rest : List PlaceInfo) (sel : Coord)
    (hsearch : env.search s.start_latlong
      (s.remaining_duration * CONVERSION_FACTOR_MINUTES_TO_METERS) = p :: rest)
    (hgeo : env.geocode ((p :: rest).getD
      (env.rand s.randCtr % (p :: rest).length) p).formatted_address = some sel) :
    ((env.route s.start_latlong sel []).duration_seconds +
        (env.route sel endLL []).duration_seconds ≤ s.remaining_duration →
      ∃ s3, (loopBody env endLL s = .next s3 ∨
          loopBody env endLL s = .brk s3) ∧
        s3.remaining_duration = s.remaining_duration -
          (env.route s.start_latlong sel []).duration_seconds ∧
        s3.intermediate_latlongs = s.intermediate_latlongs ++ [sel] ∧
        s3.start_latlong = sel) ∧
    (¬ ((env.route s.start_latlong sel []).duration_seconds +
        (env.route sel endLL []).duration_seconds ≤ s.remaining_duration) →
      ∃ s2, loopBody env endLL s = .next s2 ∧
        s2.remaining_duration = s.remaining_duration ∧
        s2.intermediate_latlongs = s.intermediate_latlongs ∧
        s2.start_latlong = s.start_latlong) := by
  constructor
  · intro hacc
    rw [loopBody_accept_eq env endLL s p rest sel hsearch hgeo hacc]
    by_cases h8 : (s.intermediate_latlongs ++ [sel]).length = 8
    · rw [if_pos h8]
      exact ⟨acceptedState env endLL s sel, Or.inr rfl, rfl, rfl, rfl⟩
    · rw [if_neg h8]
      exact ⟨acceptedState env endLL s sel, Or.inl rfl, rfl, rfl, rfl⟩
  · intro hrej
    exact ⟨_, loopBody_reject_eq env endLL s p rest sel hsearch hgeo hrej,
      rfl, rfl, rfl⟩

/-- Witness for C7: in `envAcceptOne` the candidate "C" with leg costs
3600 and 0 against a remaining 3600 is accepted with exactly 3600
subtracted, appended, and adopted as the current position. -/
theorem acceptance_iff_fits_remaining_witness :
    ((envAcceptOne.route cA cC []).duration_seconds +
        (envAcceptOne.route cC cB []).duration_seconds ≤ 3600 →
      ∃ s3, (loopBody envAcceptOne cB ⟨cA, 3600, [], 0, []⟩ = .next s3 ∨
          loopBody envAcceptOne cB ⟨cA, 3600, [], 0, []⟩ = .brk s3) ∧
        s3.remaining_duration = 3600 -
          (envAcceptOne.route cA cC []).duration_seconds ∧
        s3.intermediate_latlongs = [cC] ∧
        s3.start_latlong = cC) ∧
    (¬ ((envAcceptOne.route cA cC []).duration_seconds +
        (envAcceptOne.route cC cB []).duration_seconds ≤ 3600) →
      ∃ s2, loopBody envAcceptOne cB ⟨cA, 3600, [], 0, []⟩ = .next s2 ∧
        s2.remaining_duration = 3600 ∧
        s2.intermediate_latlongs = [] ∧
        s2.start_latlong = cA) :=
  acceptance_iff_fits_remaining envAcceptOne cB ⟨cA, 3600, [], 0, []⟩
    (placeNamed "C") [] cC rfl rfl

/-- Claim C8, counterexample: there is a sequence of collaborator responses
— a search that always returns one candidate whose route cost always
exceeds the remaining duration — on which the composition loop runs
forever: no amount of fuel completes the planning call. -/
theorem composition_loop_can_run_forever :
    plan_route_diverges envLoopForever 3600 := by
  intro fuel
  rw [plan_route_loop_eq envLoopForever 3600 fuel "A" "B" cA cB 0
    rfl rfl rfl rfl rfl (by decide)]
  rw [runLoop_loopForever fuel 0 []]

/-- Claim C8, amended: every outer iteration either accepts, appending
exactly one waypoint; or rejects, leaving remaining duration, waypoint list
and current position unchanged; or ends the call (the break at the 8-entry
cap, or an uncaught error).  Acceptances are bounded by the cap, but a
rejection makes no progress, so termination is not guaranteed for every
sequence of collaborator responses. -/
theorem iteration_appends_or_ends_or_rejects (env : Env) (endLL : Coord)
    (s : PlanState) :
    (∃ s2 w, loopBody env endLL s = .next s2 ∧
      s2.intermediate_latlongs = s.intermediate_latlongs ++ [w]) ∨
    (∃ s2, loopBody env endLL s = .next s2 ∧
      s2.remaining_duration = s.remaining_duration ∧
      s2.intermediate_latlongs = s.intermediate_latlongs ∧
      s2.start_latlong = s.start_latlong) ∨
    (∃ s2, loopBody env endLL s = .brk s2 ∧
      s2.intermediate_latlongs.length = 8) ∨
    (∃ s2 e, loopBody env endLL s = .fail s2 e) := by
  rcases loopBody_inv env endLL s with
    ⟨s2, e, hf, _⟩ | ⟨s2, hn, h1, h2, h3⟩ |
    ⟨s2, sel, hor, h1, h2, h3, h4, hiff⟩
  · exact Or.inr (Or.inr (Or.inr ⟨s2, e, hf⟩))
  · exact Or.inr (Or.inl ⟨s2, hn, h2, h1, h3⟩)
  · rcases hor with hna | hba
    · exact Or.inl ⟨s2, sel, hna, h1⟩
    · exact Or.inr (Or.inr (Or.inl ⟨s2, hba, hiff.mp hba⟩))

/-- Claim C9: from any loop state holding at most 7 waypoints (as every
state reachable from the empty initial list does), a completed run ends
with at most 8 waypoints, and an iteration that continues the loop never
leaves 8 entries behind — reaching 8 breaks unconditionally. -/
theorem waypoints_never_exceed_eight (env : Env) (endLL : Coord)
    (fuel : Nat) (s : PlanState) (res : LoopRes)
    (h7 : s.intermediate_latlongs.length ≤ 7) :
    (runLoop env endLL fuel s = some res →
      res.state.intermediate_latlongs.length ≤ 8) ∧
    (∀ s2, loopBody env endLL s = .next s2 →
      s2.intermediate_latlongs.length ≤ 7) := by
  have hnext : ∀ t t2 : PlanState, t.intermediate_latlongs.length ≤ 7 →
      loopBody env endLL t = .next t2 →
      t2.intermediate_latlongs.length ≤ 7 := by
    intro t t2 ht h
    rcases loopBody_next_cases h with ⟨h1, _, _⟩ | ⟨sel, h1, _, _, _, h8⟩
    · rw [h1]; exact ht
    · rw [h1] at h8 ⊢
      simp only [List.length_append, List.length_singleton] at h8 ⊢
      omega
  constructor
  · intro hrun
    refine runLoop_preserve env endLL
      (fun t => t.intermediate_latlongs.length ≤ 7)
      (fun t => t.intermediate_latlongs.length ≤ 8)
      hnext ?_ ?_ ?_ fuel s res h7 hrun
    · intro t t2 ht h
      rcases loopBody_brk_cases h with ⟨sel, _, _, _, _, h8⟩
      omega
    · intro t t2 e ht h
      rcases loopBody_fail_cases h with ⟨h1, _, _⟩
      rw [h1]
      omega
    · intro t ht
      omega
  · exact fun s2 h => hnext s s2 h7 h

/-- Witness for C9: the single-acceptance run in `envAcceptOne` ends with
one waypoint, within the cap. -/
theorem waypoints_never_exceed_eight_witness :
    (runLoop envAcceptOne cB 2 ⟨cA, 3600, [], 0, []⟩ =
        some (.done ⟨cC, 0, [cC], 1,
          [.searchNearby cA 2700000,
           .computeRoute cA cC [],
           .computeRoute cC cB []]⟩) →
      (LoopRes.done (⟨cC, 0, [cC], 1,
          [.searchNearby cA 2700000,
           .computeRoute cA cC [],
           .computeRoute cC cB []]⟩ :
        PlanState)).state.intermediate_latlongs.length ≤ 8) ∧
    (∀ s2, loopBody envAcceptOne cB ⟨cA, 3600, [], 0, []⟩ = .next s2 →
      s2.intermediate_latlongs.length ≤ 7) :=
  waypoints_never_exceed_eight envAcceptOne cB 2 ⟨cA, 3600, [], 0, []⟩
    (.done ⟨cC, 0, [cC], 1,
      [.searchNearby cA 2700000,
       .computeRoute cA cC [],
       .computeRoute cC cB []]⟩) (by decide)

/-- Claim C10: with collaborators returning non-negative route durations,
a loop state with non-negative remaining duration never turns negative:
every continuing or breaking iteration preserves non-negativity (the
feasibility check bounds the subtracted first leg by the remaining
duration), and a completed run ends non-negative. -/
theorem remaining_duration_never_negative (env : Env) (endLL : Coord)
    (fuel : Nat) (s : PlanState) (res : LoopRes)
    (hroute : ∀ a b l, 0 ≤ (env.route a b l).duration_seconds)
    (h0 : 0 ≤ s.remaining_duration) :
    (runLoop env endLL fuel s = some res →
      0 ≤ res.state.remaining_duration) ∧
    (∀ s2, loopBody env endLL s = .next s2 → 0 ≤ s2.remaining_duration) ∧
    (∀ s2, loopBody env endLL s = .brk s2 → 0 ≤ s2.remaining_duration) := by
  have hnext : ∀ t t2 : PlanState, 0 ≤ t.remaining_duration →
      loopBody env endLL t = .next t2 → 0 ≤ t2.remaining_duration := by
    intro t t2 ht h
    rcases loopBody_next_cases h with ⟨_, h2, _⟩ | ⟨sel, _, _, h3, h4, _⟩
    · rw [h2]; exact ht
    · have hc2 := hroute sel endLL []
      rw [h3]
      omega
  have hbrk : ∀ t t2 : PlanState, 0 ≤ t.remaining_duration →
      loopBody env endLL t = .brk t2 → 0 ≤ t2.remaining_duration := by
    intro t t2 ht h
    rcases loopBody_brk_cases h with ⟨sel, _, _, h3, h4, _⟩
    have hc2 := hroute sel endLL []
    rw [h3]
    omega
  refine ⟨?_, fun s2 h => hnext s s2 h0 h, fun s2 h => hbrk s s2 h0 h⟩
  intro hrun
  refine runLoop_preserve env endLL
    (fun t => 0 ≤ t.remaining_duration)
    (fun t => 0 ≤ t.remaining_duration)
    hnext hbrk ?_ (fun t ht => ht) fuel s res h0 hrun
  intro t t2 e ht h
  rcases loopBody_fail_cases h with ⟨_, h2, _⟩
  rw [h2]
  exact ht

/-- Witness for C10: in the constant-zero-cost environment the failing
first iteration leaves the 3600-second budget non-negative. -/
theorem remaining_duration_never_negative_witness :
    (runLoop envEmpty cB 1 ⟨cA, 3600, [], 0, []⟩ =
        some (.failed ⟨cA, 3600, [], 0,
          [.searchNearby cA 2700000]⟩ .emptyRange) →
      0 ≤ (LoopRes.failed (⟨cA, 3600, [], 0,
          [.searchNearby cA 2700000]⟩ : PlanState)
        .emptyRange).state.remaining_duration) ∧
    (∀ s2, loopBody envEmpty cB ⟨cA, 3600, [], 0, []⟩ = .next s2 →
      0 ≤ s2.remaining_duration) ∧
    (∀ s2, loopBody envEmpty cB ⟨cA, 3600, [], 0, []⟩ = .brk s2 →
      0 ≤ s2.remaining_duration) :=
  remaining_duration_never_negative envEmpty cB 1 ⟨cA, 3600, [], 0, []⟩
    (.failed ⟨cA, 3600, [], 0, [.searchNearby cA 2700000]⟩ .emptyRange)
    (fun a b l => Int.le_refl 0) (by decide)

end JourneyPlanner
